import Mathlib

/-!
Shallow embedding of `NoSuspend.py` (KOLANICH/NoSuspend.py).

Flag values (`SuspendInhibitionState`, `EXECUTION_STATE`) are Python `IntFlag`
bit sets; we embed them as `Nat` bitmasks and `|` as `Nat.lor` (`|||`).
-/

namespace NoSuspendPy

/-! ### `SuspendInhibitionState` (src/NoSuspend.py lines 39-44)

`none = 0`, `suspend = 1`, `display = 2`. -/

abbrev StateFlags := Nat

def SuspendInhibitionState.noneV : StateFlags := 0
def SuspendInhibitionState.suspend : StateFlags := 1
def SuspendInhibitionState.display : StateFlags := 2

/-- Composition of flag sets: the `|` operator of the `IntFlag` values used
throughout the source (`self.flag |= ...`, `self.flag | (self.prev ...)`).
The spec names this operation `compose`. -/
def compose (a b : StateFlags) : StateFlags := a ||| b

/-! ### `NoSuspend.__init__` (src/NoSuspend.py lines 52-60)

```
self.flag = STATE_ENUM(suspend * STATE_ENUM.suspend | display * STATE_ENUM.display)
for k, v in kwargs.items():
    if hasattr(STATE_ENUM, k) and isinstance(v, bool):
        self.flag |= getattr(STATE_ENUM, k) * v
```

Extra keyword-argument values are arbitrary Python objects; only `bool`s
pass the `isinstance(v, bool)` test.  We embed a Python value as either a
bool or an opaque non-bool. -/

inductive PyVal where
  | bool (b : Bool)
  | other
deriving DecidableEq, Repr

/-- The named members of `SuspendInhibitionState`, the `STATE_ENUM` of the
base `NoSuspend` class: the attributes `hasattr(STATE_ENUM, k)` finds. -/
def stateEnumMembers : List (String × StateFlags) :=
  [("none", 0), ("suspend", 1), ("display", 2)]

/-- Embeds `getattr(STATE_ENUM, k)` for a member name, `none` when
`hasattr(STATE_ENUM, k)` is false. -/
def stateEnumLookup (k : String) : Option StateFlags :=
  (stateEnumMembers.find? (fun m => m.1 == k)).map (fun m => m.2)

/-- The contribution of one extra keyword argument to `self.flag`:
`getattr(STATE_ENUM, k) * v` when the name is a member and the value is a
bool (multiplying by `False` gives `0`), nothing otherwise (the loop body
is skipped). -/
def kwargBit (kv : String × PyVal) : StateFlags :=
  match stateEnumLookup kv.1, kv.2 with
  | some v, PyVal.bool b => if b then v else 0
  | _, _ => 0

/-- Whether a keyword argument passes the
`hasattr(STATE_ENUM, k) and isinstance(v, bool)` test. -/
def kwargAccepted (kv : String × PyVal) : Bool :=
  (stateEnumLookup kv.1).isSome &&
    (match kv.2 with | PyVal.bool _ => true | PyVal.other => false)

/-- The flag computed before the kwargs loop:
`suspend * STATE_ENUM.suspend | display * STATE_ENUM.display`. -/
def baseFlag (suspend display : Bool) : StateFlags :=
  (if suspend then SuspendInhibitionState.suspend else 0) |||
    (if display then SuspendInhibitionState.display else 0)

/-- Embeds `NoSuspend.__init__`'s computation of `self.flag`. -/
def noSuspendInitFlag (suspend display : Bool) (kwargs : List (String × PyVal)) :
    StateFlags :=
  kwargs.foldl (fun fl kv => fl ||| kwargBit kv) (baseFlag suspend display)

/-- The union of the bits of the accepted-and-true extra keyword arguments. -/
def acceptedBitsUnion (kwargs : List (String × PyVal)) : StateFlags :=
  kwargs.foldl (fun acc kv => acc ||| kwargBit kv) 0

theorem foldl_lor_init {α : Type} (f : α → Nat) (l : List α) (a b : Nat) :
    l.foldl (fun x kv => x ||| f kv) (a ||| b) =
      a ||| l.foldl (fun x kv => x ||| f kv) b := by
  induction l generalizing b with
  | nil => rfl
  | cons kv rest ih =>
    simp only [List.foldl_cons]
    rw [Nat.lor_assoc, ih]

theorem noSuspendInitFlag_eq_base_lor_accepted (s d : Bool)
    (kwargs : List (String × PyVal)) :
    noSuspendInitFlag s d kwargs = baseFlag s d ||| acceptedBitsUnion kwargs := by
  unfold noSuspendInitFlag acceptedBitsUnion
  have h := foldl_lor_init kwargBit kwargs (baseFlag s d) 0
  rw [Nat.or_zero] at h
  exact h

/-! ### `EXECUTION_STATE` and `NoSuspendWinVistaPlus` (src/NoSuspend.py lines 118-157)

`SetThreadExecutionState` is the single native call: it sets the recorded
process-wide bitmask and returns the previous one (the fake single-call
backend of the spec records exactly this bitmask). -/

def EXECUTION_STATE.AWAYMODE_REQUIRED : StateFlags := 0x40
def EXECUTION_STATE.CONTINUOUS : StateFlags := 0x80000000
def EXECUTION_STATE.display : StateFlags := 0x2
def EXECUTION_STATE.suspend : StateFlags := 0x1
def EXECUTION_STATE.USER_PRESENT : StateFlags := 0x4

/-- The backend state: the bitmask recorded by the single-call platform. -/
structure WinBackend where
  esState : StateFlags
deriving DecidableEq, Repr

/-- Embeds `SetThreadExecutionState(es)`: sets the bitmask to `es`, returns the
previous bitmask. -/
def setThreadExecutionState (b : WinBackend) (es : StateFlags) :
    StateFlags × WinBackend :=
  (b.esState, ⟨es⟩)

/-- Embeds `NoSuspendWinVistaPlus.getCurrentState()`:
`SetThreadExecutionState(0)` and wrap the returned previous value. -/
def winGetCurrentState (b : WinBackend) : StateFlags × WinBackend :=
  setThreadExecutionState b 0

/-- The scope fields of `NoSuspendWinVistaPlus`
(`__slots__ = ("prev", "current")` plus the inherited `flag`, `inherit`).
`prev`/`current` start as Python `None`, hence `Option`. -/
structure WinScope where
  flag : StateFlags
  inherit : Bool
  prev : Option StateFlags
  current : Option StateFlags
deriving DecidableEq, Repr

/-- Embeds `NoSuspendWinVistaPlus.__init__`: base-class flag computation on the
`EXECUTION_STATE` enum, then `self.flag |= CONTINUOUS`, `prev = current = None`.
For the claims we take the already-computed base flag as a parameter. -/
def winInit (requestFlag : StateFlags) (inherit : Bool) : WinScope :=
  { flag := requestFlag ||| EXECUTION_STATE.CONTINUOUS
    inherit := inherit
    prev := Option.none
    current := Option.none }

/-- Embeds `NoSuspendWinVistaPlus.__enter__`:
```
self.prev = getCurrentState()
self.current = self.flag | (self.prev if self.inherit else 0)
setThreadExecutionState(self.current)
return self.current
```
Returns (returned effective flags, updated scope, updated backend). -/
def winEnter (s : WinScope) (b : WinBackend) :
    StateFlags × WinScope × WinBackend :=
  let pr := winGetCurrentState b
  let prev := pr.1
  let b1 := pr.2
  let current := s.flag ||| (if s.inherit then prev else 0)
  let b2 := (setThreadExecutionState b1 current).2
  (current, { s with prev := some prev, current := some current }, b2)

/-- Embeds `NoSuspendWinVistaPlus.__exit__`:
```
self.current = self.prev
setThreadExecutionState(self.current)
self.prev = None
```
When `self.prev` is `None` (a second exit), `self.current` is first set to
`None` and then `int(None)` inside `setThreadExecutionState` raises
`TypeError` before the kernel call, leaving the backend untouched and
`self.prev` still `None`.  Returns (outcome, scope after, backend after). -/
def winExit (s : WinScope) (b : WinBackend) :
    Except String Unit × WinScope × WinBackend :=
  match s.prev with
  | some p =>
    (Except.ok (), { s with current := some p, prev := Option.none },
      (setThreadExecutionState b p).2)
  | Option.none =>
    (Except.error "TypeError: int() argument is None", { s with current := Option.none }, b)

/-! ### `DBusInhibitor` endpoints and `NoSuspendLinux` (src/NoSuspend.py lines 212-430)

An endpoint is one discovered D-Bus inhibitor interface.  Its behaviour is
what the claims quantify over: `inhibit` either returns a cookie or raises
(e.g. a `KeyError` when the method was never discovered into `ifc`, or a
D-Bus error), and `uninhibit` either succeeds or raises. -/

structure Endpoint where
  eid : Nat
  /-- Embeds `DBusInhibitor.inhibit` via `_inhibitCall`: `some cookie` on success,
  `none` when the underlying call raises. -/
  inhibitBehavior : Option Nat
  /-- Whether `DBusInhibitor.uninhibit` via `_uninhibitCall` raises. -/
  uninhibitRaises : Bool
deriving DecidableEq, Repr

/-- Embeds `powerRelatedIfcs` flattened: group name → the endpoints discovered for
that group (the nested DE-name / proxy-name dicts, in iteration order).
In the source the outer keys are always `"suspend"` and `"screensaver"`
(the keys of `dbusPowerRelatedInterfaces` are kept even when no endpoint
was discovered). -/
abbrev Registry := List (String × List Endpoint)

/-- Embeds `self.cookies` of `NoSuspendLinux`.  It starts as a
`defaultdict(list)` mapping group name → list of `(inhibiter, cookie)`
pairs, but `__exit__` reassigns it to the empty *list* `[]`, a different
Python type; we embed the dynamic type with a sum. -/
inductive CookiesField where
  | dict (held : List (String × List (Endpoint × Nat)))
  | pylist
deriving DecidableEq, Repr

/-- Embeds the `NoSuspendLinux` scope state (lines 394-402): the request flag and the
cookie bookkeeping (appName/reason do not affect the modelled behaviour). -/
structure LinuxScope where
  flag : StateFlags
  cookies : CookiesField
deriving DecidableEq, Repr

/-- Embeds `NoSuspendLinux.__init__`: base flag computation, `cookies = defaultdict(list)`. -/
def linuxInit (requestFlag : StateFlags) : LinuxScope :=
  { flag := requestFlag, cookies := CookiesField.dict [] }

/-- Embeds `_enumDecompose(type(self.flag), self.flag)[0]` on
`SuspendInhibitionState`: the named nonzero members covered by the flag,
ordered by value descending as `enum._decompose` sorts them. -/
def flagGroups (flag : StateFlags) : List String :=
  (if flag.testBit 1 then ["display"] else []) ++
    (if flag.testBit 0 then ["suspend"] else [])

/-- The degradation warning of `__enter__`'s `else` branch (line 412). -/
def groupWarning (grNm : String) : String :=
  "The suspension for `" ++ grNm ++
    "` is not set (either not implemented, or not available in the environment), ignoring"

/-- The inner two loops of `__enter__` for one group: call
`inhibiter.inhibit(appName, reason)` on every endpoint in order, appending
`(inhibiter, ck)` for each success.  A raising `inhibit` aborts: the pairs
acquired so far stay appended (the list was mutated in place) and the
`Bool` is `false` (the exception propagates). -/
def acquireEndpoints : List Endpoint → List (Endpoint × Nat) × Bool
  | [] => ([], true)
  | e :: rest =>
    match e.inhibitBehavior with
    | some ck =>
      let r := acquireEndpoints rest
      ((e, ck) :: r.1, r.2)
    | Option.none => ([], false)

/-- The outer loop of `__enter__` over the decomposed groups.  Returns the
`cookies` entries built (a `defaultdict(list)` entry exists only when at
least one pair was appended), the warnings emitted, and whether the loop
completed (`false` = an `inhibit` call raised and the exception propagates,
skipping all later endpoints and groups). -/
def linuxEnterGo (reg : Registry) : List String →
    List (String × List (Endpoint × Nat)) × List String × Bool
  | [] => ([], [], true)
  | g :: gs =>
    match reg.find? (fun e => e.1 == g) with
    | some entry =>
      let a := acquireEndpoints entry.2
      let newHeld := if a.1.isEmpty then [] else [(g, a.1)]
      if a.2 then
        let r := linuxEnterGo reg gs
        (newHeld ++ r.1, r.2.1, r.2.2)
      else
        (newHeld, [], false)
    | Option.none =>
      let r := linuxEnterGo reg gs
      (r.1, groupWarning g :: r.2.1, r.2.2)

/-- Outcome of `NoSuspendLinux.__enter__`: the updated scope, the warnings
emitted, whether the call completed (`false` = an exception propagated out
of `__enter__`), and the value it returns on completion. -/
structure EnterResult where
  scope : LinuxScope
  warnings : List String
  completed : Bool
  returned : StateFlags
deriving DecidableEq, Repr

/-- Embeds `NoSuspendLinux.__enter__` (lines 403-414).  The value returned on
completion is `self.flag`, unrestricted (line 414). -/
def linuxEnter (reg : Registry) (s : LinuxScope) : EnterResult :=
  let r := linuxEnterGo reg (flagGroups s.flag)
  { scope := { s with cookies := CookiesField.dict r.1 }
    warnings := r.2.1
    completed := r.2.2
    returned := s.flag }

/-- Release of the pairs of one group inside `__exit__`:
`inhibiter.uninhibit(*cookie)` on each pair in order.  Each call is one
release attempt `(endpoint id, cookie)`; a raising `uninhibit` propagates,
so the attempt is recorded but nothing after it runs. -/
def releasePairs : List (Endpoint × Nat) → List (Nat × Nat) × Bool
  | [] => ([], true)
  | (e, ck) :: rest =>
    if e.uninhibitRaises then
      ([(e.eid, ck)], false)
    else
      let r := releasePairs rest
      ((e.eid, ck) :: r.1, r.2)

/-- The two loops of `__exit__` over `self.cookies.values()`. -/
def releaseAll : List (String × List (Endpoint × Nat)) → List (Nat × Nat) × Bool
  | [] => ([], true)
  | entry :: rest =>
    let r := releasePairs entry.2
    if r.2 then
      let r2 := releaseAll rest
      (r.1 ++ r2.1, r2.2)
    else
      (r.1, false)

/-- Embeds `NoSuspendLinux.__exit__` (lines 416-422):
```
for group in self.cookies.values():
    for cancelCall in group:
        inhibiter.uninhibit(*cookie)
self.cookies = []
```
On completion `self.cookies` becomes the empty Python *list*.  A raising
`uninhibit` propagates out of `__exit__` before the reassignment, leaving
`self.cookies` as the dict it was.  After a first successful exit,
`self.cookies` is a list, and `self.cookies.values()` raises
`AttributeError` immediately: no release attempt is made and the scope is
unchanged. -/
structure ExitResult where
  scope : LinuxScope
  attempts : List (Nat × Nat)
  completed : Bool
deriving DecidableEq, Repr

def linuxExit (s : LinuxScope) : ExitResult :=
  match s.cookies with
  | CookiesField.dict held =>
    let r := releaseAll held
    if r.2 then
      { scope := { s with cookies := CookiesField.pylist }, attempts := r.1, completed := true }
    else
      { scope := s, attempts := r.1, completed := false }
  | CookiesField.pylist => { scope := s, attempts := [], completed := false }

/-- The attributes resolvable on a `NoSuspendLinux` instance: the slots and
fields set in `__init__` plus the methods of `NoSuspendLinux` and its bases
`NoSuspend`/`object` relevant here.  `"uninhibit"` is *not* among them:
no class in the scope's MRO defines it (it is a method of `DBusInhibitor`,
an unrelated class). -/
def linuxScopeAttrs : List String :=
  ["flag", "inherit", "cookies", "appName", "reason",
   "getCurrentState", "__init__", "__enter__", "__exit__", "__del__"]

/-- Embeds `NoSuspendLinux.__del__` (lines 423-428):
```
for ck in self.cookies:
    try:
        self.uninhibit(ck)
    except BaseException:
        pass
```
Iterating the cookies dict yields its *keys* (group-name strings); for each,
the attribute lookup `self.uninhibit` raises `AttributeError`, which the
bare `except` swallows, so no release call is ever made.  (When `cookies`
is the post-exit empty list, the loop body never runs.)  Returns the
release attempts performed and the exceptions swallowed by the `except`:
one swallowed `AttributeError` per iterated key, zero release attempts. -/
def linuxDel (s : LinuxScope) : List (Nat × Nat) × List String :=
  match s.cookies with
  | CookiesField.dict held =>
    held.foldl (fun acc entry =>
      if linuxScopeAttrs.contains "uninhibit" then
        -- dead branch: no class in the scope's MRO defines `uninhibit`
        acc
      else
        (acc.1, acc.2 ++ ["AttributeError: uninhibit, at key " ++ entry.1])) ([], [])
  | CookiesField.pylist => ([], [])

/-! ### Degraded variants (src/NoSuspend.py lines 69-108)

`NoSuspendDummy`, `NoSuspendNotAvailable`, `NoSuspendNotImplemented`,
`NoSuspendDependenciesAreMissing`, and the class hierarchy: the documented
capability query is `issubclass(NoSuspend, NoSuspendNotAvailable)`
(the docstrings of lines 88, 93, 102). -/

inductive NSClass where
  | base            -- NoSuspend
  | dummy           -- NoSuspendDummy
  | notAvailable    -- NoSuspendNotAvailable
  | notImplemented  -- NoSuspendNotImplemented
  | depsMissing     -- NoSuspendDependenciesAreMissing
  | winVistaPlus    -- NoSuspendWinVistaPlus
  | linux           -- NoSuspendLinux
deriving DecidableEq, Repr

/-- The direct base class of each class in the source. -/
def directBase : NSClass → Option NSClass
  | NSClass.base => Option.none
  | NSClass.dummy => some NSClass.base
  | NSClass.notAvailable => some NSClass.dummy
  | NSClass.notImplemented => some NSClass.notAvailable
  | NSClass.depsMissing => some NSClass.notAvailable
  | NSClass.winVistaPlus => some NSClass.base
  | NSClass.linux => some NSClass.base

/-- The method-resolution order of each class (the class followed by its
bases, as Python computes it for this single-inheritance hierarchy). -/
def mro : NSClass → List NSClass
  | NSClass.base => [NSClass.base]
  | NSClass.dummy => [NSClass.dummy, NSClass.base]
  | NSClass.notAvailable => [NSClass.notAvailable, NSClass.dummy, NSClass.base]
  | NSClass.notImplemented =>
    [NSClass.notImplemented, NSClass.notAvailable, NSClass.dummy, NSClass.base]
  | NSClass.depsMissing =>
    [NSClass.depsMissing, NSClass.notAvailable, NSClass.dummy, NSClass.base]
  | NSClass.winVistaPlus => [NSClass.winVistaPlus, NSClass.base]
  | NSClass.linux => [NSClass.linux, NSClass.base]

/-- Embeds `issubclass(c, d)`: whether `d` appears in `c`'s method-resolution
order. -/
def isSubclassOf (c d : NSClass) : Bool :=
  (mro c).contains d

/-- The documented construction-time capability query for a degraded
variant: `issubclass(cls, NoSuspendNotAvailable)`. -/
def degradedQuery (c : NSClass) : Bool :=
  isSubclassOf c NSClass.notAvailable

/-- Embeds `NoSuspendDummy.__enter__`: returns `SuspendInhibitionState.none`,
emitting no warning. -/
def dummyEnter : List String × StateFlags := ([], 0)

/-- Embeds the fact that `NoSuspendNotAvailable` inherits `__enter__` from `NoSuspendDummy`. -/
def notAvailableEnter : List String × StateFlags := dummyEnter

/-- Embeds `NoSuspendNotImplemented.__enter__`: `warnings.warn(...)` then
`super().__enter__()`. -/
def notImplementedEnter : List String × StateFlags :=
  ("Suspension prevention is not implemented in this lib for this environment. Help is welcome."
      :: notAvailableEnter.1,
    notAvailableEnter.2)

/-- Embeds `NoSuspendDependenciesAreMissing.__enter__`: same warn-then-super shape. -/
def depsMissingEnter : List String × StateFlags :=
  ("Suspension prevention is not implemented in this lib for this environment. Help is welcome."
      :: notAvailableEnter.1,
    notAvailableEnter.2)

/-- Embeds `NoSuspendDummy.__exit__` (inherited by all degraded variants): `pass`.
It always succeeds and changes nothing. -/
def dummyExit : Except String Unit := Except.ok ()

/-- Dispatch of `__enter__` over the degraded variants. -/
def variantEnter : NSClass → List String × StateFlags
  | NSClass.notImplemented => notImplementedEnter
  | NSClass.depsMissing => depsMissingEnter
  | NSClass.notAvailable => notAvailableEnter
  | _ => dummyEnter

/-! ## Helper lemmas -/

theorem kwargBit_eq_zero_of_not_accepted (kv : String × PyVal)
    (h : kwargAccepted kv = false) : kwargBit kv = 0 := by
  obtain ⟨k, v⟩ := kv
  unfold kwargAccepted at h
  unfold kwargBit
  rcases hl : stateEnumLookup k with _ | val <;> rcases hv : v with b | _ <;>
    simp [hl, hv] at h ⊢

theorem acceptedBitsUnion_cons (kv : String × PyVal) (l : List (String × PyVal)) :
    acceptedBitsUnion (kv :: l) = kwargBit kv ||| acceptedBitsUnion l := by
  unfold acceptedBitsUnion
  simp only [List.foldl_cons]
  rw [Nat.zero_or]
  have h := foldl_lor_init kwargBit l (kwargBit kv) 0
  rw [Nat.or_zero] at h
  exact h

theorem acceptedBitsUnion_filter (l : List (String × PyVal)) :
    acceptedBitsUnion (l.filter (fun kv => kwargAccepted kv)) = acceptedBitsUnion l := by
  induction l with
  | nil => rfl
  | cons kv rest ih =>
    by_cases hacc : kwargAccepted kv = true
    · rw [List.filter_cons_of_pos (by simpa using hacc), acceptedBitsUnion_cons,
        acceptedBitsUnion_cons, ih]
    · have hf : kwargAccepted kv = false := by
        simpa using hacc
      rw [List.filter_cons_of_neg (by simp [hf]), acceptedBitsUnion_cons, ih,
        kwargBit_eq_zero_of_not_accepted kv hf, Nat.zero_or]

theorem linuxEnterGo_warning_mem (reg : Registry) (gs : List String) (g : String)
    (hg : g ∈ gs) (hnone : reg.find? (fun e => e.1 == g) = Option.none)
    (hdone : (linuxEnterGo reg gs).2.2 = true) :
    groupWarning g ∈ (linuxEnterGo reg gs).2.1 := by
  induction gs with
  | nil => cases hg
  | cons gh gs' ih =>
    unfold linuxEnterGo at hdone ⊢
    rcases List.mem_cons.mp hg with rfl | hmem
    · rw [hnone] at hdone ⊢
      exact List.mem_cons_self _ _
    · rcases hfind : reg.find? (fun e => e.1 == gh) with _ | entry
      · rw [hfind] at hdone ⊢
        exact List.mem_cons_of_mem _ (ih hmem hdone)
      · rw [hfind] at hdone ⊢
        rcases hok : (acquireEndpoints entry.2).2 with _ | _
        · simp [hok] at hdone
        · simp only [hok, if_true] at hdone ⊢
          exact ih hmem hdone

theorem releasePairs_initialSegment (ps : List (Endpoint × Nat)) :
    ∃ t, (releasePairs ps).1 ++ t = ps.map (fun p => (p.1.eid, p.2)) := by
  induction ps with
  | nil => exact ⟨[], rfl⟩
  | cons p rest ih =>
    obtain ⟨e, ck⟩ := p
    unfold releasePairs
    rcases hr : e.uninhibitRaises with _ | _
    · simp only [hr, Bool.false_eq_true, if_false]
      obtain ⟨t, ht⟩ := ih
      exact ⟨t, by simpa using ht⟩
    · simp only [hr, if_true]
      exact ⟨rest.map (fun p => (p.1.eid, p.2)), by simp⟩

theorem releasePairs_complete (ps : List (Endpoint × Nat))
    (h : (releasePairs ps).2 = true) :
    (releasePairs ps).1 = ps.map (fun p => (p.1.eid, p.2)) := by
  induction ps with
  | nil => rfl
  | cons p rest ih =>
    obtain ⟨e, ck⟩ := p
    unfold releasePairs at h ⊢
    rcases hr : e.uninhibitRaises with _ | _
    · simp only [hr, Bool.false_eq_true, if_false] at h ⊢
      simpa using ih h
    · simp [hr] at h

/-- Flattened list of `(endpoint id, cookie)` pairs held in the cookie dict:
the release calls `__exit__` makes when no release raises. -/
def heldAttempts (held : List (String × List (Endpoint × Nat))) : List (Nat × Nat) :=
  held.foldr (fun entry acc => entry.2.map (fun p => (p.1.eid, p.2)) ++ acc) []

theorem releaseAll_initialSegment (held : List (String × List (Endpoint × Nat))) :
    ∃ t, (releaseAll held).1 ++ t = heldAttempts held := by
  induction held with
  | nil => exact ⟨[], rfl⟩
  | cons entry rest ih =>
    unfold releaseAll
    rcases hok : (releasePairs entry.2).2 with _ | _
    · simp only [hok, Bool.false_eq_true, if_false]
      obtain ⟨t0, ht0⟩ := releasePairs_initialSegment entry.2
      refine ⟨t0 ++ heldAttempts rest, ?_⟩
      rw [← List.append_assoc, ht0]
      rfl
    · simp only [hok, if_true]
      obtain ⟨t, ht⟩ := ih
      refine ⟨t, ?_⟩
      rw [List.append_assoc, ht, releasePairs_complete entry.2 hok]
      rfl

theorem releaseAll_complete (held : List (String × List (Endpoint × Nat)))
    (h : (releaseAll held).2 = true) :
    (releaseAll held).1 = heldAttempts held := by
  induction held with
  | nil => rfl
  | cons entry rest ih =>
    unfold releaseAll at h ⊢
    rcases hok : (releasePairs entry.2).2 with _ | _
    · simp [hok] at h
    · simp only [hok, if_true] at h ⊢
      rw [releasePairs_complete entry.2 hok, ih h]
      rfl

theorem linuxExit_completed_cookies (s : LinuxScope)
    (h : (linuxExit s).completed = true) :
    (linuxExit s).scope.cookies = CookiesField.pylist := by
  unfold linuxExit at h ⊢
  rcases hc : s.cookies with held | _ <;> rw [hc] at h
  · rcases hok : (releaseAll held).2 with _ | _
    · simp [hok] at h
    · simp [hok]
  · simp at h

/-! ## Claim theorems -/

/-- C9: for all StateFlags `a b`, `compose(a, b) = compose(b, a)` and
`compose(a, a) = a`: flag composition is the commutative, idempotent union,
a pure computation with no failure modes. -/
theorem claim9_compose_comm_idem (a b : StateFlags) :
    compose a b = compose b a ∧ compose a a = a :=
  ⟨Nat.or_comm a b, Nat.or_self a⟩

/-- C10: in `NoSuspend.__init__`, an extra keyword argument that fails the
`hasattr(STATE_ENUM, k) and isinstance(v, bool)` test is silently ignored
(appending it changes nothing), and the stored flag equals the union of the
named boolean parameters that were true with the bits of the accepted extra
keyword arguments. -/
theorem claim10_init_kwarg_filtering (s d : Bool) (kwargs : List (String × PyVal))
    (k : String) (v : PyVal) (h : kwargAccepted (k, v) = false) :
    noSuspendInitFlag s d (kwargs ++ [(k, v)]) = noSuspendInitFlag s d kwargs ∧
    noSuspendInitFlag s d kwargs =
      baseFlag s d ||| acceptedBitsUnion (kwargs.filter (fun kv => kwargAccepted kv)) := by
  constructor
  · unfold noSuspendInitFlag
    rw [List.foldl_append]
    simp only [List.foldl_cons, List.foldl_nil]
    rw [kwargBit_eq_zero_of_not_accepted _ h, Nat.or_zero]
  · rw [noSuspendInitFlag_eq_base_lor_accepted, acceptedBitsUnion_filter]

theorem claim10_init_kwarg_filtering_witness :
    noSuspendInitFlag true false
        ([("display", PyVal.bool true)] ++ [("frobnicate", PyVal.bool true)]) =
      noSuspendInitFlag true false [("display", PyVal.bool true)] ∧
    noSuspendInitFlag true false [("display", PyVal.bool true)] =
      baseFlag true false |||
        acceptedBitsUnion
          ([("display", PyVal.bool true)].filter (fun kv => kwargAccepted kv)) :=
  claim10_init_kwarg_filtering true false [("display", PyVal.bool true)]
    "frobnicate" (PyVal.bool true) (by decide)

/-- C3: on the single-call backend, `enter()` followed immediately by
`exit()` restores the backend's recorded bitmask to its pre-entry value,
for every scope and every starting bitmask. -/
theorem claim3_single_call_roundtrip (flag : StateFlags) (inh : Bool)
    (p c : Option StateFlags) (s0 : StateFlags) :
    ((winExit (winEnter ⟨flag, inh, p, c⟩ ⟨s0⟩).2.1
        (winEnter ⟨flag, inh, p, c⟩ ⟨s0⟩).2.2).2.2).esState = s0 :=
  rfl

/-- C7: `enter()` with `inherit = true` returns the union of the scope's
requested flags and the current process-wide bitmask; with
`inherit = false` it returns exactly the requested flags. -/
theorem claim7_inherit_union (flag : StateFlags) (p c : Option StateFlags)
    (s0 : StateFlags) :
    (winEnter ⟨flag, true, p, c⟩ ⟨s0⟩).1 = flag ||| s0 ∧
    (winEnter ⟨flag, false, p, c⟩ ⟨s0⟩).1 = flag := by
  refine ⟨rfl, ?_⟩
  show flag ||| 0 = flag
  exact Nat.or_zero flag

/-- C8 counterexample: the documented construction-time capability query
`issubclass(cls, NoSuspendNotAvailable)` does NOT flag `NoSuspendDummy` as
degraded — `NoSuspendDummy` is not a subclass of `NoSuspendNotAvailable`
(the inheritance goes the other way), so a caller cannot distinguish the
Dummy variant from a genuinely inhibiting backend by that query, contrary
to the claim. -/
theorem claim8_dummy_query_counterexample :
    ¬ degradedQuery NSClass.dummy = true := by decide

/-- C8 (amended): for the Dummy, NotAvailable and NotImplemented variants,
`enter()` always returns the zero flags (warnings aside) and never raises,
and `exit()` is a no-op that never raises; the `issubclass`-based capability
query recognises `NoSuspendNotAvailable`, `NoSuspendNotImplemented` and
`NoSuspendDependenciesAreMissing` as degraded, but classifies
`NoSuspendDummy` as genuinely available. -/
theorem claim8_degraded_variants :
    (variantEnter NSClass.dummy = ([], 0) ∧
      variantEnter NSClass.notAvailable = ([], 0) ∧
      (variantEnter NSClass.notImplemented).2 = 0 ∧
      (variantEnter NSClass.depsMissing).2 = 0) ∧
    dummyExit = Except.ok () ∧
    (degradedQuery NSClass.notAvailable = true ∧
      degradedQuery NSClass.notImplemented = true ∧
      degradedQuery NSClass.depsMissing = true) ∧
    degradedQuery NSClass.dummy = false :=
  ⟨⟨rfl, rfl, rfl, rfl⟩, rfl, ⟨rfl, rfl, rfl⟩, rfl⟩

/-- C1 counterexample: requesting `display` (a group absent from
`powerRelatedIfcs`, whose keys are always `"suspend"` and `"screensaver"`)
makes `__enter__` emit the degradation warning, yet the returned value is
`self.flag = 2`, which still CONTAINS the display bit (bit 1) — the return
value is not restricted to the truly inhibited subset, contrary to the
claim that it omits unsupported bits. -/
theorem claim1_returned_keeps_unsupported_bit :
    (linuxEnter [("suspend", []), ("screensaver", [])] (linuxInit 2)).warnings =
        [groupWarning "display"] ∧
    (linuxEnter [("suspend", []), ("screensaver", [])] (linuxInit 2)).completed = true ∧
    ¬ ((linuxEnter [("suspend", []), ("screensaver", [])] (linuxInit 2)).returned.testBit 1
        = false) := by
  refine ⟨rfl, rfl, ?_⟩
  decide

/-- C1 (amended): when a requested bit's group is not a key of the interface
registry, a completing `__enter__` emits the degradation warning for that
group, but the returned `StateFlags` is `self.flag` unchanged — the full
requested set, unsupported bits included. -/
theorem claim1_warning_but_full_flags (reg : Registry) (s : LinuxScope) (g : String)
    (hg : g ∈ flagGroups s.flag)
    (hnone : reg.find? (fun e => e.1 == g) = Option.none)
    (hdone : (linuxEnter reg s).completed = true) :
    groupWarning g ∈ (linuxEnter reg s).warnings ∧
    (linuxEnter reg s).returned = s.flag :=
  ⟨linuxEnterGo_warning_mem reg (flagGroups s.flag) g hg hnone hdone, rfl⟩

theorem claim1_warning_but_full_flags_witness :
    groupWarning "display" ∈
        (linuxEnter [("suspend", []), ("screensaver", [])] (linuxInit 2)).warnings ∧
    (linuxEnter [("suspend", []), ("screensaver", [])] (linuxInit 2)).returned =
      (linuxInit 2).flag :=
  claim1_warning_but_full_flags [("suspend", []), ("screensaver", [])] (linuxInit 2)
    "display" (by decide) (by decide) (by decide)

/-- C2 counterexample: with two endpoints registered for `suspend`, the
first returning cookie 5 and the second raising on `inhibit`, `__enter__`
does NOT complete — the exception propagates (there is no try/except around
`inhibiter.inhibit`), contrary to the claim that the failure does not abort
acquisition and that `enter()` completes.  The successful handle is still
recorded in the held set. -/
theorem claim2_acquire_raise_aborts_enter :
    (linuxEnter
        [("suspend", [⟨1, some 5, false⟩, ⟨2, Option.none, false⟩]), ("screensaver", [])]
        (linuxInit 1)).completed = false ∧
    (linuxEnter
        [("suspend", [⟨1, some 5, false⟩, ⟨2, Option.none, false⟩]), ("screensaver", [])]
        (linuxInit 1)).scope.cookies =
      CookiesField.dict [("suspend", [(⟨1, some 5, false⟩, 5)])] :=
  ⟨rfl, rfl⟩

/-- C2 (amended): when, for the single requested group, one endpoint's
`inhibit` succeeds with a cookie and the next endpoint's `inhibit` raises,
`__enter__` aborts (the exception propagates and later endpoints and groups
are not attempted), but the successfully obtained handle is still recorded
in the scope's held set, and a subsequent `__exit__` calls release exactly
on that handle and on no other. -/
theorem claim2_partial_acquire_recorded (e1 e2 : Endpoint) (ck : Nat)
    (rest : List Endpoint) (reg : Registry) (s : LinuxScope)
    (h1 : e1.inhibitBehavior = some ck)
    (h2 : e2.inhibitBehavior = Option.none)
    (hgroups : flagGroups s.flag = ["suspend"])
    (hfind : reg.find? (fun e => e.1 == "suspend") = some ("suspend", e1 :: e2 :: rest))
    (hrel : e1.uninhibitRaises = false) :
    (linuxEnter reg s).completed = false ∧
    (linuxEnter reg s).scope.cookies = CookiesField.dict [("suspend", [(e1, ck)])] ∧
    (linuxExit (linuxEnter reg s).scope).attempts = [(e1.eid, ck)] ∧
    (linuxExit (linuxEnter reg s).scope).completed = true := by
  have hacq : acquireEndpoints (e1 :: e2 :: rest) = ([(e1, ck)], false) := by
    unfold acquireEndpoints
    rw [h1]
    unfold acquireEndpoints
    rw [h2]
  have hgo : linuxEnterGo reg (flagGroups s.flag) =
      ([("suspend", [(e1, ck)])], [], false) := by
    rw [hgroups]
    unfold linuxEnterGo
    rw [hfind]
    simp [hacq]
  have hscope : (linuxEnter reg s).scope.cookies =
      CookiesField.dict [("suspend", [(e1, ck)])] := by
    show CookiesField.dict (linuxEnterGo reg (flagGroups s.flag)).1 = _
    rw [hgo]
  have hcompleted : (linuxEnter reg s).completed = false := by
    show (linuxEnterGo reg (flagGroups s.flag)).2.2 = false
    rw [hgo]
  refine ⟨hcompleted, hscope, ?_, ?_⟩ <;>
    · unfold linuxExit
      rw [hscope]
      simp [releaseAll, releasePairs, hrel]

theorem claim2_partial_acquire_recorded_witness :
    (linuxEnter
        [("suspend", [⟨1, some 5, false⟩, ⟨2, Option.none, false⟩]), ("screensaver", [])]
        (linuxInit 1)).completed = false ∧
    (linuxEnter
        [("suspend", [⟨1, some 5, false⟩, ⟨2, Option.none, false⟩]), ("screensaver", [])]
        (linuxInit 1)).scope.cookies =
      CookiesField.dict [("suspend", [(⟨1, some 5, false⟩, 5)])] ∧
    (linuxExit (linuxEnter
        [("suspend", [⟨1, some 5, false⟩, ⟨2, Option.none, false⟩]), ("screensaver", [])]
        (linuxInit 1)).scope).attempts = [((⟨1, some 5, false⟩ : Endpoint).eid, 5)] ∧
    (linuxExit (linuxEnter
        [("suspend", [⟨1, some 5, false⟩, ⟨2, Option.none, false⟩]), ("screensaver", [])]
        (linuxInit 1)).scope).completed = true :=
  claim2_partial_acquire_recorded ⟨1, some 5, false⟩ ⟨2, Option.none, false⟩ 5 []
    [("suspend", [⟨1, some 5, false⟩, ⟨2, Option.none, false⟩]), ("screensaver", [])]
    (linuxInit 1) rfl rfl (by decide) (by decide) rfl

/-- C6 counterexample: with two held handles, the first endpoint's release
raising, `__exit__` makes a release attempt only on the first handle — the
second held handle is never released — and `__exit__` itself fails (the
exception propagates: there is no try/except in `__exit__` or in
`DBusInhibitor.uninhibit`), contrary to the claim that the failure is
caught and the remaining handles are still released. -/
theorem claim6_release_raise_propagates :
    (linuxExit ⟨1, CookiesField.dict
        [("suspend", [(⟨1, some 5, true⟩, 10), (⟨2, some 6, false⟩, 11)])]⟩).attempts =
      [(1, 10)] ∧
    (linuxExit ⟨1, CookiesField.dict
        [("suspend", [(⟨1, some 5, true⟩, 10), (⟨2, some 6, false⟩, 11)])]⟩).completed =
      false :=
  ⟨rfl, rfl⟩

/-- C6 (amended): over a held set, `__exit__` attempts releases in order and
each held handle receives at most one release attempt (the attempt list is
an initial segment of the held list, so it is duplicate-free whenever the
held list is); a raising release propagates out of `__exit__` — the scope is
left unchanged and the remaining handles get no release attempt — and only
when no release raises does `__exit__` complete, having attempted every held
handle exactly once. -/
theorem claim6_release_best_effort (s : LinuxScope)
    (held : List (String × List (Endpoint × Nat)))
    (hc : s.cookies = CookiesField.dict held) :
    (∃ t, (linuxExit s).attempts ++ t = heldAttempts held) ∧
    ((linuxExit s).completed = false → (linuxExit s).scope = s) ∧
    ((heldAttempts held).Nodup → (linuxExit s).attempts.Nodup) ∧
    ((linuxExit s).completed = true → (linuxExit s).attempts = heldAttempts held) := by
  have hx : linuxExit s =
      (if (releaseAll held).2 then
        { scope := { s with cookies := CookiesField.pylist },
          attempts := (releaseAll held).1, completed := true }
      else { scope := s, attempts := (releaseAll held).1, completed := false }) := by
    unfold linuxExit
    rw [hc]
  rcases hok : (releaseAll held).2 with _ | _
  · rw [hx, hok, if_neg (by decide)]
    refine ⟨releaseAll_initialSegment held, fun _ => rfl, ?_, ?_⟩
    · intro hnd
      show (releaseAll held).1.Nodup
      obtain ⟨t, ht⟩ := releaseAll_initialSegment held
      rw [← ht] at hnd
      exact hnd.of_append_left
    · intro hfalse
      exact Bool.noConfusion hfalse
  · rw [hx, hok, if_pos rfl]
    refine ⟨?_, ?_, ?_, fun _ => releaseAll_complete held hok⟩
    · show ∃ t, (releaseAll held).1 ++ t = heldAttempts held
      rw [releaseAll_complete held hok]
      exact ⟨[], List.append_nil _⟩
    · intro hfalse
      exact Bool.noConfusion hfalse
    · intro hnd
      show (releaseAll held).1.Nodup
      rw [releaseAll_complete held hok]
      exact hnd

theorem claim6_release_best_effort_witness :
    (∃ t, (linuxExit ⟨1, CookiesField.dict
        [("suspend", [(⟨1, some 5, true⟩, 10), (⟨2, some 6, false⟩, 11)])]⟩).attempts ++ t =
      heldAttempts [("suspend", [(⟨1, some 5, true⟩, 10), (⟨2, some 6, false⟩, 11)])]) ∧
    ((linuxExit ⟨1, CookiesField.dict
        [("suspend", [(⟨1, some 5, true⟩, 10), (⟨2, some 6, false⟩, 11)])]⟩).completed = false →
      (linuxExit ⟨1, CookiesField.dict
        [("suspend", [(⟨1, some 5, true⟩, 10), (⟨2, some 6, false⟩, 11)])]⟩).scope =
        ⟨1, CookiesField.dict
          [("suspend", [(⟨1, some 5, true⟩, 10), (⟨2, some 6, false⟩, 11)])]⟩) ∧
    ((heldAttempts [("suspend", [(⟨1, some 5, true⟩, 10), (⟨2, some 6, false⟩, 11)])]).Nodup →
      (linuxExit ⟨1, CookiesField.dict
        [("suspend", [(⟨1, some 5, true⟩, 10), (⟨2, some 6, false⟩, 11)])]⟩).attempts.Nodup) ∧
    ((linuxExit ⟨1, CookiesField.dict
        [("suspend", [(⟨1, some 5, true⟩, 10), (⟨2, some 6, false⟩, 11)])]⟩).completed = true →
      (linuxExit ⟨1, CookiesField.dict
        [("suspend", [(⟨1, some 5, true⟩, 10), (⟨2, some 6, false⟩, 11)])]⟩).attempts =
        heldAttempts [("suspend", [(⟨1, some 5, true⟩, 10), (⟨2, some 6, false⟩, 11)])]) :=
  claim6_release_best_effort
    ⟨1, CookiesField.dict [("suspend", [(⟨1, some 5, true⟩, 10), (⟨2, some 6, false⟩, 11)])]⟩
    [("suspend", [(⟨1, some 5, true⟩, 10), (⟨2, some 6, false⟩, 11)])] rfl

/-- C4 counterexample: enter then exit on the single-call backend, then a
second exit.  The second `__exit__` sets `self.current = self.prev = None`
and then raises `TypeError` from `int(None)` — it is not a silent no-op: it
raises, and it mutates the scope (`current` goes from the restored snapshot
`some 0` to `None`), contrary to the claim. -/
theorem claim4_second_exit_counterexample :
    (winExit (winExit (winEnter (winInit 1 true) ⟨0⟩).2.1
        (winEnter (winInit 1 true) ⟨0⟩).2.2).2.1
      (winExit (winEnter (winInit 1 true) ⟨0⟩).2.1
        (winEnter (winInit 1 true) ⟨0⟩).2.2).2.2).1 =
      Except.error "TypeError: int() argument is None" ∧
    (winExit (winEnter (winInit 1 true) ⟨0⟩).2.1
        (winEnter (winInit 1 true) ⟨0⟩).2.2).2.1.current = some 0 ∧
    (winExit (winExit (winEnter (winInit 1 true) ⟨0⟩).2.1
        (winEnter (winInit 1 true) ⟨0⟩).2.2).2.1
      (winExit (winEnter (winInit 1 true) ⟨0⟩).2.1
        (winEnter (winInit 1 true) ⟨0⟩).2.2).2.2).2.1.current = Option.none :=
  ⟨rfl, rfl, rfl⟩

/-- C4 (amended): calling exit a second time is not a no-op.  On the
single-call backend the second `__exit__` raises `TypeError` (it passes the
cleared `None` snapshot to `int()`), makes no backend call (the backend
bitmask is untouched) and clears the scope's `current` field.  On the
multi-endpoint backend a completed first `__exit__` leaves `self.cookies`
as an empty Python list, and the second `__exit__` raises `AttributeError`
on `self.cookies.values()` before any release attempt, leaving the scope
unchanged. -/
theorem claim4_second_exit_raises :
    (∀ (flag : StateFlags) (inh : Bool) (p c : Option StateFlags) (s0 : StateFlags),
      (winExit (winExit (winEnter ⟨flag, inh, p, c⟩ ⟨s0⟩).2.1
          (winEnter ⟨flag, inh, p, c⟩ ⟨s0⟩).2.2).2.1
        (winExit (winEnter ⟨flag, inh, p, c⟩ ⟨s0⟩).2.1
          (winEnter ⟨flag, inh, p, c⟩ ⟨s0⟩).2.2).2.2) =
        (Except.error "TypeError: int() argument is None",
          { flag := flag, inherit := inh, prev := Option.none, current := Option.none },
          (winExit (winEnter ⟨flag, inh, p, c⟩ ⟨s0⟩).2.1
            (winEnter ⟨flag, inh, p, c⟩ ⟨s0⟩).2.2).2.2)) ∧
    (∀ s : LinuxScope, s.cookies = CookiesField.pylist →
      linuxExit s = { scope := s, attempts := [], completed := false }) ∧
    (∀ s : LinuxScope, (linuxExit s).completed = true →
      linuxExit (linuxExit s).scope =
        { scope := (linuxExit s).scope, attempts := [], completed := false }) := by
  refine ⟨fun flag inh p c s0 => rfl, fun s hs => ?_, fun s hs => ?_⟩
  · unfold linuxExit
    rw [hs]
  · have hp := linuxExit_completed_cookies s hs
    generalize (linuxExit s).scope = s2 at hp ⊢
    unfold linuxExit
    rw [hp]

theorem claim4_second_exit_raises_witness :
    (winExit (winExit (winEnter ⟨1, true, Option.none, Option.none⟩ ⟨0⟩).2.1
        (winEnter ⟨1, true, Option.none, Option.none⟩ ⟨0⟩).2.2).2.1
      (winExit (winEnter ⟨1, true, Option.none, Option.none⟩ ⟨0⟩).2.1
        (winEnter ⟨1, true, Option.none, Option.none⟩ ⟨0⟩).2.2).2.2) =
      (Except.error "TypeError: int() argument is None",
        { flag := 1, inherit := true, prev := Option.none, current := Option.none },
        (winExit (winEnter ⟨1, true, Option.none, Option.none⟩ ⟨0⟩).2.1
          (winEnter ⟨1, true, Option.none, Option.none⟩ ⟨0⟩).2.2).2.2) ∧
    linuxExit ⟨0, CookiesField.pylist⟩ =
      { scope := ⟨0, CookiesField.pylist⟩, attempts := [], completed := false } ∧
    linuxExit (linuxExit (linuxInit 0)).scope =
      { scope := (linuxExit (linuxInit 0)).scope, attempts := [], completed := false } :=
  ⟨claim4_second_exit_raises.1 1 true Option.none Option.none 0,
    claim4_second_exit_raises.2.1 ⟨0, CookiesField.pylist⟩ rfl,
    claim4_second_exit_raises.2.2 (linuxInit 0) rfl⟩

/-- C5: destroying an entered-but-never-exited scope releases nothing.
With one endpoint for `suspend` whose `inhibit` succeeded with cookie 7,
the held set records the handle, yet `__del__` performs zero release
calls: it iterates the dict's keys and the lookup `self.uninhibit` raises
`AttributeError` (no such method exists on `NoSuspendLinux`), which the
bare `except BaseException: pass` swallows — one swallowed error per key,
no release.  The claim (and the code's own evident intent in lines
423-428) requires exactly one release per acquired handle. -/
theorem claim5_del_leaks_handles :
    (linuxEnter [("suspend", [⟨1, some 7, false⟩]), ("screensaver", [])]
        (linuxInit 1)).completed = true ∧
    (linuxEnter [("suspend", [⟨1, some 7, false⟩]), ("screensaver", [])]
        (linuxInit 1)).scope.cookies =
      CookiesField.dict [("suspend", [(⟨1, some 7, false⟩, 7)])] ∧
    (linuxDel (linuxEnter [("suspend", [⟨1, some 7, false⟩]), ("screensaver", [])]
        (linuxInit 1)).scope).1 = [] ∧
    (linuxDel (linuxEnter [("suspend", [⟨1, some 7, false⟩]), ("screensaver", [])]
        (linuxInit 1)).scope).2 = ["AttributeError: uninhibit, at key suspend"] :=
  ⟨rfl, rfl, rfl, rfl⟩

end NoSuspendPy
